import Mathlib

/-!
Shallow embedding of the assemblyline-ui ingestion admission pipeline
(src/assemblyline_ui/api/v4/ingest.py, function ingest_single_file) and of the
live-status queue endpoints (src/al_ui/api/tbd/live.py), together with proofs
about the frozen specification claims.

Modelling conventions:
- Python dicts whose key sets matter are embedded as structures with Option
  fields (a key is absent iff the field is none) plus an extra-keys flag when
  dict truthiness is tested in the source.
- Python values read from JSON are embedded as the JVal type; Python
  truthiness and the isinstance checks of the source are embedded explicitly
  (a Python bool is an instance of int).
- External collaborators (filestore, datastore, URL fetcher, user settings
  resolver, random id generator, clock) are embedded as explicit state in a
  World record or as request inputs; the random id generator is determinized
  as a counter, rendered to a string by the injective encoder natTag.
- Machine state touched by the code (temp directory, files on disk, queues)
  is explicit World state so that the cleanup discipline is provable.
-/

namespace ALUI

/-- Python-style JSON scalar values, as they appear in the parsed data block. -/
inductive JVal where
  | jnull : JVal
  | jbool : Bool → JVal
  | jint : Int → JVal
  | jstr : String → JVal
  deriving Repr, DecidableEq

/-- Python truthiness of a JSON scalar. -/
def JVal.truthy : JVal → Bool
  | .jnull => false
  | .jbool b => b
  | .jint n => n != 0
  | .jstr s => s != ""

/-- Python isinstance(v, int); a Python bool is an instance of int. -/
def JVal.isInstInt : JVal → Bool
  | .jint _ => true
  | .jbool _ => true
  | _ => false

/-- Python isinstance(v, bool). -/
def JVal.isInstBool : JVal → Bool
  | .jbool _ => true
  | _ => false

/-- Result of identify.fileinfo over some byte content: the content identity. -/
structure FileInfo where
  sha256 : String
  size : Nat
  deriving Repr, DecidableEq

/-- Byte content resolved onto disk, carrying its identity and what
decode_file (the external CART decoder) would produce for it: when decoded is
some, decoding yields a new content identity plus wrapper metadata. -/
structure Content where
  info : FileInfo
  decoded : Option (FileInfo × List (String × String))
  deriving Repr, DecidableEq

/-- The bin part of a multipart request: a filename and the uploaded bytes. -/
structure BinFile where
  filename : String
  content : Content
  deriving Repr, DecidableEq

/-- Outcome of safe_download for the URL carried by the request (external
bounded fetcher): success with some content, or one of its three failures. -/
inductive FetchResult where
  | ok : Content → FetchResult
  | tooBig : FetchResult
  | invalidUrl : FetchResult
  | forbiddenLoc : FetchResult
  deriving Repr, DecidableEq

/-- The caller-supplied params dict: each field is present iff some. -/
structure ParamsOverride where
  deep_scan : Option Bool := none
  priority : Option Int := none
  ignore_cache : Option Bool := none
  ignore_dynamic_recursion_prevention : Option Bool := none
  ignore_filtering : Option Bool := none
  ignore_size : Option Bool := none
  ttl : Option Int := none
  type : Option String := none
  groups : Option (List String) := none
  description : Option String := none
  classification : Option String := none
  deriving Repr, DecidableEq

/-- The parsed JSON data block of an ingest request; fields are the keys the
source reads, each present iff some; hasExtraKeys records whether the dict
holds any further keys (needed for its Python truthiness test). -/
structure DataBlock where
  name : Option String := none
  sha256 : Option String := none
  url : Option String := none
  params : Option ParamsOverride := none
  metadata : Option (List (String × String)) := none
  notification_queue : Option String := none
  notification_threshold : Option JVal := none
  generate_alert : Option JVal := none
  hasExtraKeys : Bool := false
  deriving Repr, DecidableEq

/-- Python truthiness of the data dict: `not data` holds iff it has no keys. -/
def DataBlock.isEmpty (d : DataBlock) : Bool :=
  d.name.isNone && d.sha256.isNone && d.url.isNone && d.params.isNone &&
  d.metadata.isNone && d.notification_queue.isNone &&
  d.notification_threshold.isNone && d.generate_alert.isNone && !d.hasExtraKeys

/-- The submission parameters dict as manipulated by ingest_single_file.
Keys the source reads unconditionally are total fields; groups and
ignore_size model possibly-absent keys. -/
structure SParams where
  deep_scan : Bool
  priority : Int
  ignore_cache : Bool
  ignore_dynamic_recursion_prevention : Bool
  ignore_filtering : Bool
  type : String
  groups : Option (List String)
  ttl : Int
  ignore_size : Option Bool
  classification : String
  description : String
  generate_alert : Bool
  max_extracted : Int
  max_supplementary : Int
  submitter : String
  deriving Repr, DecidableEq

/-- Configuration values the ingest endpoint reads. -/
structure Config where
  max_file_size : Nat
  ingest_max_priority : Int
  max_dtl : Int
  allow_url_submissions : Bool
  default_max_extracted : Int
  default_max_supplementary : Int
  deriving Repr, DecidableEq

/-- The authenticated user: name, groups, and the submission params resolved
from the user settings (ui_to_submission_params of load_user_settings). -/
structure User where
  uname : String
  groups : List String
  settings : SParams
  deriving Repr, DecidableEq

/-- Modelled external resolver ui_to_submission_params of load_user_settings:
yields the user default submission params carried by the user record. -/
def ui_to_submission_params (u : User) : SParams := u.settings

/-- One file entry of a Submission job record. -/
structure SubFile where
  name : String
  sha256 : String
  size : Nat
  deriving Repr, DecidableEq

/-- The Submission job record published to the m-ingest queue. -/
structure Submission where
  sid : Nat
  files : List SubFile
  notification : Option (String × JVal)
  metadata : List (String × String)
  params : SParams
  deriving Repr, DecidableEq

/-- Explicit external world state threaded through the pipeline: the fresh-id
counter, the filesystem (as existing dirs and files), the content-addressed
filestore, an upload counter, the ingest queue, and traces of the datastore
freshen calls and submission_received notifications. -/
structure World where
  nextId : Nat
  fs_dirs : List String
  fs_files : List String
  filestore : List (String × Content)
  uploads : Nat
  ingestQueue : List Submission
  datastoreSaves : List String
  received : Nat
  deriving Repr, DecidableEq

/-- Injective rendering of the id counter to a string; determinizes the
random component of get_random_id and reply_queue_name. -/
def natTag : Nat → String
  | 0 => ""
  | n + 1 => natTag n ++ "i"

/-- The configured temporary submission directory. -/
def TEMP_SUBMIT_DIR : String := "/tmp/al_ui/submit"

/-- os.path.join for the paths this code builds. -/
def pathJoin (a b : String) : String := a ++ "/" ++ b

/-- Characters after the last slash of a path, accumulated left to right. -/
def basenameChars : List Char → List Char → List Char
  | [], acc => acc
  | c :: rest, acc =>
      if c = '/' then basenameChars rest [] else basenameChars rest (acc ++ [c])

/-- os.path.basename for the slash-separated paths this code handles. -/
def basename (s : String) : String := ⟨basenameChars s.data []⟩

/-- String prefix test over the character lists (kernel-computable). -/
def isPre (pre s : String) : Bool := pre.data.isPrefixOf s.data

/-- Modelled external sanitizer safe_str (assemblyline.common.str_utils),
embedded as the identity on the already-safe names used here. -/
def safe_str (s : String) : String := s

/-- Python truthiness of an optional string (None and the empty string are
falsy). -/
def pyTruthyStr : Option String → Bool
  | some s => s != ""
  | none => false

/-- Update one key of an association list, replacing or appending. -/
def updAssoc (m : List (String × String)) (k v : String) : List (String × String) :=
  match m with
  | [] => [(k, v)]
  | (k0, v0) :: rest => if k0 = k then (k, v) :: rest else (k0, v0) :: updAssoc rest k v

/-- Key membership in an association list. -/
def containsKey (m : List (String × String)) (k : String) : Bool :=
  m.any (fun p => p.1 == k)

/-- dict.update with every binding of the second list. -/
def updateAll (m : List (String × String)) (upd : List (String × String)) :
    List (String × String) :=
  upd.foldl (fun acc p => updAssoc acc p.1 p.2) m

/-- dict.pop with a default: the value for the key (or the default) plus the
list with that key removed. -/
def popAssoc (m : List (String × String)) (k : String) (dflt : String) :
    String × List (String × String) :=
  match m with
  | [] => (dflt, [])
  | (k0, v0) :: rest =>
      if k0 = k then (v0, rest)
      else
        let r := popAssoc rest k dflt
        (r.1, (k0, v0) :: r.2)

/-- os.makedirs. -/
def World.mkdir (w : World) (d : String) : World :=
  { w with fs_dirs := d :: w.fs_dirs }

/-- Creation of a file on disk (download, fetch, write, decode targets). -/
def World.writeFile (w : World) (p : String) : World :=
  { w with fs_files := p :: w.fs_files }

/-- os.unlink. -/
def World.unlink (w : World) (p : String) : World :=
  { w with fs_files := w.fs_files.filter (fun x => x != p) }

/-- shutil.rmtree: removes the directory and everything under it. -/
def World.rmtree (w : World) (d : String) : World :=
  { w with
    fs_dirs := w.fs_dirs.filter (fun x => !(x == d || isPre (d ++ "/") x)),
    fs_files := w.fs_files.filter (fun p => !(isPre (d ++ "/") p)) }

/-- f_transport.exists on the content-addressed filestore. -/
def storeExists (w : World) (h : String) : Bool :=
  w.filestore.any (fun p => p.1 == h)

/-- f_transport.upload: places content under its hash and counts the upload. -/
def storeUpload (w : World) (h : String) (c : Content) : World :=
  { w with filestore := (h, c) :: w.filestore, uploads := w.uploads + 1 }

/-- f_transport.download: the content stored under a hash. -/
def storeLookup (w : World) (h : String) : Option Content :=
  (w.filestore.find? (fun p => p.1 == h)).map (fun p => p.2)

/-- An API response of the ingest endpoint: the success body with the ingest
id, or make_api_response with an error message and status code. -/
inductive Resp where
  | ok : Nat → Resp
  | err : String → Nat → Resp
  deriving Repr, DecidableEq

/-- Endpoint outcome: a response, or a Python exception escaping the try body
(the try block of the source has no except clause, only finally). -/
inductive Outcome where
  | resp : Resp → Outcome
  | exn : String → Outcome
  deriving Repr, DecidableEq

/-- The request body by content type: multipart with an optional json part
and an optional bin part, an application/json body, or anything else. -/
inductive ReqBody where
  | multipart : Option DataBlock → Option BinFile → ReqBody
  | jsonBody : DataBlock → ReqBody
  | badContentType : ReqBody
  deriving Repr, DecidableEq

/-- An ingest HTTP request together with the behaviour the external URL
fetcher would exhibit for the url it may carry. -/
structure Request where
  body : ReqBody
  urlFetch : FetchResult := .invalidUrl
  deriving Repr, DecidableEq

/-- Result of the try body of ingest_single_file: its outcome plus the local
variables the finally block closes over, and the world it produced. -/
structure BodyResult where
  outcome : Outcome
  out_dir : String
  original_file : Option String
  extracted_path : Option String
  world : World
  deriving Repr, DecidableEq

/-- Modelled external clock now_as_iso. -/
def now_as_iso : String := "2020-01-01T00:00:00.000000Z"

/-- Tail of the name fallback chain of the json input mode: evaluating
os.path.basename(url); when url is None this raises a TypeError. -/
def resolveFromUrl (data : DataBlock) : Except String (Option String) :=
  match data.url with
  | none => .error "TypeError"
  | some u =>
      let b := basename u
      .ok (if b = "" then none else some b)

/-- Middle of the name fallback chain: the sha256 value if truthy. -/
def resolveAfterName (data : DataBlock) : Except String (Option String) :=
  match data.sha256 with
  | some s => if s ≠ "" then .ok (some s) else resolveFromUrl data
  | none => resolveFromUrl data

/-- The name fallback chain of the json input mode, line 186 of the source:
name or sha256 or os.path.basename(url) or None, with Python truthiness. -/
def resolveJsonName (data : DataBlock) : Except String (Option String) :=
  match data.name with
  | some n => if n ≠ "" then .ok (some n) else resolveAfterName data
  | none => resolveAfterName data

/-- Lines 250 to 257 of the source: reset dangerous user settings to safe
values before the caller params are applied. -/
def resetDangerous (p : SParams) : SParams :=
  { p with
    deep_scan := false
    priority := 150
    ignore_cache := false
    ignore_dynamic_recursion_prevention := false
    ignore_filtering := false
    type := "INGEST" }

/-- Line 260 of the source: dict update with the caller params; a key is
overridden exactly when the caller supplied it. -/
def applyOverride (p : SParams) (o : ParamsOverride) : SParams :=
  { p with
    deep_scan := o.deep_scan.getD p.deep_scan
    priority := o.priority.getD p.priority
    ignore_cache := o.ignore_cache.getD p.ignore_cache
    ignore_dynamic_recursion_prevention :=
      o.ignore_dynamic_recursion_prevention.getD p.ignore_dynamic_recursion_prevention
    ignore_filtering := o.ignore_filtering.getD p.ignore_filtering
    ignore_size := match o.ignore_size with | some b => some b | none => p.ignore_size
    ttl := o.ttl.getD p.ttl
    type := o.type.getD p.type
    groups := match o.groups with | some g => some g | none => p.groups
    description := o.description.getD p.description
    classification := o.classification.getD p.classification }

/-- Lines 265 to 271 of the source: the final parameter overrides, with the
priority clamped to the configured max ingest priority. -/
def finalOverride (cfg : Config) (user : User) (generate_alert : Bool)
    (p : SParams) : SParams :=
  { p with
    generate_alert := generate_alert
    max_extracted := cfg.default_max_extracted
    max_supplementary := cfg.default_max_supplementary
    priority := min p.priority cfg.ingest_max_priority
    submitter := user.uname }

/-- Lines 274 to 277 of the source: enforce the maximum days to live; the
ttl value is tested with Python truthiness (0 is falsy). -/
def clampTtl (cfg : Config) (p : SParams) : SParams :=
  if cfg.max_dtl > 0 then
    { p with ttl := if p.ttl ≠ 0 then min p.ttl cfg.max_dtl else cfg.max_dtl }
  else p

/-- Lines 246 to 277 of the source: the submission params layering of the
ingest endpoint — user defaults, dangerous-value reset, caller params,
groups default, final overrides, ttl clamp. -/
def build_s_params (cfg : Config) (user : User) (data : DataBlock)
    (generate_alert : Bool) : SParams :=
  let s0 := ui_to_submission_params user
  let s1 := resetDangerous s0
  let s2 := applyOverride s1 (data.params.getD {})
  let s3 := if s2.groups.isNone then { s2 with groups := some user.groups } else s2
  let s4 := finalOverride cfg user generate_alert s3
  clampTtl cfg s4

/-- The size rejection message of line 284 of the source. -/
def sizeErrMsg (size maxSize : Nat) : String :=
  "File too large (" ++ toString size ++ " > " ++ toString maxSize ++ "). Ingestion failed"

/-- Lines 246 to 342 of the source: everything after the file bytes are on
disk — params layering, size gate, decode, dedup upload, datastore freshen,
notification params, metadata assembly, submission build and publish. -/
def ingestAfterResolve (cfg : Config) (user : User) (data : DataBlock)
    (generate_alert : Bool) (nthreshold : JVal) (out_dir out_file0 nm : String)
    (content : Content) (extra_meta : List (String × String)) (w : World) :
    BodyResult :=
  let s_params := build_s_params cfg user data generate_alert
  let fileinfo := content.info
  if fileinfo.size > cfg.max_file_size ∧ s_params.ignore_size.getD false = false then
    ⟨.resp (.err (sizeErrMsg fileinfo.size cfg.max_file_size) 400), out_dir,
      some out_file0, none, w⟩
  else if fileinfo.size = 0 then
    ⟨.resp (.err "File empty. Ingestion failed" 400), out_dir, some out_file0, none, w⟩
  else
    let dec := content.decoded
    let extracted_path := match dec with
      | some _ => some (out_file0 ++ ".extracted")
      | none => none
    let fileinfo2 := match dec with | some (fi, _) => fi | none => fileinfo
    let al_meta := match dec with | some (_, m) => m | none => []
    let w := match extracted_path with | some p => w.writeFile p | none => w
    let sha := fileinfo2.sha256
    let upContent : Content := match dec with | some (fi, _) => ⟨fi, none⟩ | none => content
    let w := if storeExists w sha then w else storeUpload w sha upContent
    let w := { w with datastoreSaves := sha :: w.datastoreSaves }
    let notif : Option (String × JVal) := match data.notification_queue with
      | some q => if q ≠ "" then some (q, nthreshold) else none
      | none => none
    let ingest_id := w.nextId
    let w := { w with nextId := w.nextId + 1 }
    let md0 := data.metadata.getD []
    let md1 := updAssoc md0 "ingest_id" (natTag ingest_id)
    let md2 := updAssoc md1 "type" s_params.type
    let pr := popAssoc al_meta "name" nm
    let nameF := pr.1
    let md3 := updateAll md2 pr.2
    let md4 := if containsKey md3 "ts" then md3 else updAssoc md3 "ts" now_as_iso
    let md5 := updateAll md4 extra_meta
    let s_params2 :=
      if s_params.description ≠ "" then s_params
      else { s_params with
             description := "[" ++ s_params.type ++ "] Inspection of file: " ++ nameF }
    let submission : Submission :=
      ⟨ingest_id, [⟨nameF, sha, fileinfo2.size⟩], notif, md5, s_params2⟩
    let w := { w with ingestQueue := w.ingestQueue ++ [submission], received := w.received + 1 }
    ⟨.resp (.ok ingest_id), out_dir, some out_file0, extracted_path, w⟩

/-- Lines 190 to 244 of the source: the validations after input-mode parsing,
the temp directory creation, and the resolution of the file bytes onto disk,
continuing into ingestAfterResolve. -/
def ingestLoadAndGo (cfg : Config) (user : User) (fetch : FetchResult)
    (out_dir : String) (data : DataBlock) (binary : Option BinFile)
    (sha256 url : Option String) (nameOpt : Option String) (w : World) :
    BodyResult :=
  if data.isEmpty then ⟨.resp (.err "Missing data block" 400), out_dir, none, none, w⟩
  else
    let nthreshold := data.notification_threshold.getD .jnull
    if nthreshold.isInstInt = false ∧ nthreshold.truthy = true then
      ⟨.resp (.err "notification_threshold should be and int" 400), out_dir, none, none, w⟩
    else
      let ga := data.generate_alert.getD (.jbool false)
      if ga.isInstBool = false then
        ⟨.resp (.err "generate_alert should be a boolean" 400), out_dir, none, none, w⟩
      else
        let gaB := match ga with | .jbool b => b | _ => false
        if pyTruthyStr nameOpt = false then
          ⟨.resp (.err "Filename missing" 400), out_dir, none, none, w⟩
        else
          let nm := safe_str (basename (nameOpt.getD ""))
          if nm = "" then ⟨.resp (.err "Invalid filename" 400), out_dir, none, none, w⟩
          else
            let w := w.mkdir out_dir
            let out_file := pathJoin out_dir nm
            match binary with
            | some b =>
                let w := w.writeFile out_file
                ingestAfterResolve cfg user data gaB nthreshold out_dir out_file nm
                  b.content [] w
            | none =>
                if pyTruthyStr sha256 then
                  let s := sha256.getD ""
                  if storeExists w s then
                    let c := (storeLookup w s).getD ⟨⟨s, 0⟩, none⟩
                    let w := w.writeFile out_file
                    ingestAfterResolve cfg user data gaB nthreshold out_dir out_file nm
                      c [] w
                  else
                    ⟨.resp (.err "SHA256 does not exist in our datastore" 404), out_dir,
                      some out_file, none, w⟩
                else if pyTruthyStr url then
                  if cfg.allow_url_submissions = false then
                    ⟨.resp (.err "URL submissions are disabled in this system" 400), out_dir,
                      some out_file, none, w⟩
                  else
                    match fetch with
                    | .ok c =>
                        let w := w.writeFile out_file
                        ingestAfterResolve cfg user data gaB nthreshold out_dir out_file nm
                          c [("submitted_url", url.getD "")] w
                    | .tooBig =>
                        ⟨.resp (.err "File too big to be scanned." 400), out_dir,
                          some out_file, none, w⟩
                    | .invalidUrl =>
                        ⟨.resp (.err "Url provided is invalid." 400), out_dir,
                          some out_file, none, w⟩
                    | .forbiddenLoc =>
                        ⟨.resp (.err "Hostname in this URL cannot be resolved." 400), out_dir,
                          some out_file, none, w⟩
                else
                  ⟨.resp (.err "Missing file to scan. No binary, sha256 or url provided." 400),
                    out_dir, some out_file, none, w⟩

/-- The try body of ingest_single_file: input-mode parsing and everything
through publication, without the finally cleanup. -/
def ingestBody (cfg : Config) (user : User) (req : Request) (w0 : World) :
    BodyResult :=
  let dirId := w0.nextId
  let w := { w0 with nextId := w0.nextId + 1 }
  let out_dir := pathJoin TEMP_SUBMIT_DIR (natTag dirId)
  match req.body with
  | .badContentType => ⟨.resp (.err "Invalid content type" 400), out_dir, none, none, w⟩
  | .multipart jsonPart binOpt =>
      let data := jsonPart.getD {}
      match binOpt with
      | none => ⟨.exn "BadRequestKeyError", out_dir, none, none, w⟩
      | some binary =>
          let nameOpt : Option String := some (data.name.getD binary.filename)
          ingestLoadAndGo cfg user req.urlFetch out_dir data (some binary) none none nameOpt w
  | .jsonBody data =>
      match resolveJsonName data with
      | .error e => ⟨.exn e, out_dir, none, none, w⟩
      | .ok nameOpt =>
          ingestLoadAndGo cfg user req.urlFetch out_dir data none data.sha256 data.url
            nameOpt w

/-- Lines 346 to 350 of the source: the first try block of the finally —
unlink original_file when it is set and the path exists. -/
def cleanupOriginal (b : BodyResult) : World :=
  match b.original_file with
  | some p => if b.world.fs_files.contains p then b.world.unlink p else b.world
  | none => b.world

/-- Lines 352 to 356 of the source: the second try block — unlink
extracted_path when it is set and the path exists. -/
def cleanupExtracted (w : World) (extracted : Option String) : World :=
  match extracted with
  | some p => if w.fs_files.contains p then w.unlink p else w
  | none => w

/-- Lines 358 to 362 of the source: the third try block — rmtree the temp
directory when the path exists. -/
def cleanupDir (w : World) (d : String) : World :=
  if w.fs_dirs.contains d || w.fs_files.contains d then w.rmtree d else w

/-- Lines 344 to 362 of the source: the finally block, running its three
best-effort cleanup steps in order. -/
def cleanupFiles (b : BodyResult) : World :=
  cleanupDir (cleanupExtracted (cleanupOriginal b) b.extracted_path) b.out_dir

/-- The full ingest_single_file endpoint: the try body followed by the
finally cleanup, which runs on the exception path as well. -/
def ingest_single_file (cfg : Config) (user : User) (req : Request) (w0 : World) :
    Outcome × World :=
  let b := ingestBody cfg user req w0
  (b.outcome, cleanupFiles b)

/-- A raw message of the live status protocol: its status string and the
cache_key key when present. -/
structure StatusMsg where
  status : String
  cache_key : Option String
  deriving Repr, DecidableEq

/-- The msg field of a mapped live response: JSON null, a string, or the raw
message echoed back on the unknown-status branch. -/
inductive LiveMsgVal where
  | null : LiveMsgVal
  | text : String → LiveMsgVal
  | raw : StatusMsg → LiveMsgVal
  deriving Repr, DecidableEq

/-- The client-facing response record built by the live endpoints. -/
structure LiveResponse where
  type : String
  err_msg : Option String
  status_code : Nat
  msg : LiveMsgVal
  deriving Repr, DecidableEq

/-- Lines 51 to 61 of live.py: the status table mapping one raw message to a
response; reading a missing cache_key key raises KeyError. -/
def mapStatusMessage (m : StatusMsg) : Except String LiveResponse :=
  if m.status = "STOP" then
    .ok ⟨"stop", none, 200, .text "All messages received, closing queue..."⟩
  else if m.status = "START" then
    .ok ⟨"start", none, 200, .text "Start listening..."⟩
  else if m.status = "OK" then
    match m.cache_key with
    | some k => .ok ⟨"cachekey", none, 200, .text k⟩
    | none => .error "KeyError"
  else if m.status = "FAIL" then
    match m.cache_key with
    | some k => .ok ⟨"cachekeyerr", none, 200, .text k⟩
    | none => .error "KeyError"
  else
    .ok ⟨"error", some "Unknown message", 500, .raw m⟩

/-- The live get_message endpoint over the result of the non-blocking pop:
the timeout response when no message is available, the table otherwise. -/
def live_get_message (popResult : Option StatusMsg) : Except String LiveResponse :=
  match popResult with
  | none => .ok ⟨"timeout", some "Timeout waiting for a message.", 408, .null⟩
  | some m => mapStatusMessage m

/-- The live get_message_list endpoint over the queue content at call time:
pop and map every message until the queue reports empty. -/
def live_get_messages : List StatusMsg → Except String (List LiveResponse)
  | [] => .ok []
  | m :: rest => do
      let r ← mapStatusMessage m
      let rs ← live_get_messages rest
      .ok (r :: rs)

/-- The message pushed on the control queue by outstanding_services. -/
structure ControlRequest where
  sid : String
  state : String
  watch_queue : String
  deriving Repr, DecidableEq

/-- The submission record looked up in the datastore, reduced to the
classification field this endpoint reads. -/
structure SubRecord where
  classification : String
  deriving Repr, DecidableEq

/-- The authenticated user of the live endpoints. -/
structure LiveUser where
  classification : String
  deriving Repr, DecidableEq

/-- External queue state of the live endpoints: the reply-name counter, the
named queues holding control requests, the named reply queues, and a trace of
the blocking pop calls with their timeout bound. -/
structure LiveWorld where
  nextReply : Nat
  ctrlQueues : List (String × List ControlRequest)
  replyQueues : List (String × List String)
  popCalls : List (String × Nat)
  deriving Repr, DecidableEq

/-- Modelled external reply_queue_name: a name unique per allocation,
determinized as the state string plus an injective counter rendering. -/
def reply_queue_name (pfx : String) (n : Nat) : String := pfx ++ "-" ++ natTag n

/-- NamedQueue push: appends to the tail of the queue with that name. -/
def pushNamed {α : Type} (qs : List (String × List α)) (n : String) (m : α) :
    List (String × List α) :=
  match qs with
  | [] => [(n, [m])]
  | (q, ms) :: rest =>
      if q = n then (q, ms ++ [m]) :: rest else (q, ms) :: pushNamed rest n m

/-- NamedQueue pop: removes and returns the head of the queue with that name,
or none when it is empty or absent. -/
def popNamed {α : Type} (qs : List (String × List α)) (n : String) :
    Option α × List (String × List α) :=
  match qs with
  | [] => (none, [])
  | (q, ms) :: rest =>
      if q = n then
        match ms with
        | [] => (none, (q, ms) :: rest)
        | m :: mrest => (some m, (q, mrest) :: rest)
      else
        let r := popNamed rest n
        (r.1, (q, ms) :: r.2)

/-- The content of the queue with a given name. -/
def lookupQueue {α : Type} (qs : List (String × List α)) (n : String) : List α :=
  match qs.find? (fun p => p.1 == n) with
  | some p => p.2
  | none => []

/-- Outcome of the outstanding_services endpoint: the reply popped from the
reply queue (none meaning the 5 second bound expired), or the 403 response. -/
inductive OSResult where
  | reply : Option String → OSResult
  | forbidden : String → Nat → OSResult
  deriving Repr, DecidableEq

/-- Lines 112 to 146 of live.py: the outstanding_services endpoint, with the
classification checker and the datastore lookup as external collaborators. -/
def outstanding_services (acc : String → String → Bool)
    (store : String → Option SubRecord) (sid : String)
    (user : Option LiveUser) (w : LiveWorld) : OSResult × LiveWorld :=
  let data := store sid
  match user, data with
  | some u, some d =>
      if acc u.classification d.classification then
        let state := "oustanding_services"
        let reply_name := reply_queue_name state w.nextReply
        let w1 := { w with
          nextReply := w.nextReply + 1
          ctrlQueues := pushNamed w.ctrlQueues "control-queue" ⟨sid, state, reply_name⟩ }
        let pr := popNamed w1.replyQueues reply_name
        (.reply pr.1,
          { w1 with replyQueues := pr.2, popCalls := w1.popCalls ++ [(reply_name, 5)] })
      else (.forbidden "You are not allowed to access this submissions." 403, w)
  | _, _ => (.forbidden "You are not allowed to access this submissions." 403, w)

/-- The StatusMessage invariant of the data model: cache_key is present when
the status is OK or FAIL. -/
def wfStatusMsg (m : StatusMsg) : Prop :=
  (m.status = "OK" ∨ m.status = "FAIL") → m.cache_key ≠ none

/-- A well-formed raw message always maps to a response, never the timeout
response. -/
theorem mapStatusMessage_ok (m : StatusMsg) (h : wfStatusMsg m) :
    ∃ r, mapStatusMessage m = .ok r ∧ r.type ≠ "timeout" := by
  unfold mapStatusMessage
  split_ifs with h1 h2 h3 h4
  · exact ⟨_, rfl, by decide⟩
  · exact ⟨_, rfl, by decide⟩
  · cases hk : m.cache_key with
    | none => exact absurd hk (h (Or.inl h3))
    | some k => exact ⟨⟨"cachekey", none, 200, .text k⟩, rfl, by simp⟩
  · cases hk : m.cache_key with
    | none => exact absurd hk (h (Or.inr h4))
    | some k => exact ⟨⟨"cachekeyerr", none, 200, .text k⟩, rfl, by simp⟩
  · exact ⟨⟨"error", some "Unknown message", 500, .raw m⟩, rfl, by simp⟩

/-- C5: the live get_message mapping is exactly the spec table — no message
gives timeout 408 with null msg; STOP, START, OK and FAIL give their mapped
responses with status 200; any other status gives error 500 with the raw
message preserved. -/
theorem claim_C5_live_status_table :
    live_get_message none =
      .ok ⟨"timeout", some "Timeout waiting for a message.", 408, .null⟩ ∧
    (∀ m : StatusMsg, m.status = "STOP" →
      live_get_message (some m) =
        .ok ⟨"stop", none, 200, .text "All messages received, closing queue..."⟩) ∧
    (∀ m : StatusMsg, m.status = "START" →
      live_get_message (some m) =
        .ok ⟨"start", none, 200, .text "Start listening..."⟩) ∧
    (∀ (m : StatusMsg) (k : String), m.status = "OK" → m.cache_key = some k →
      live_get_message (some m) = .ok ⟨"cachekey", none, 200, .text k⟩) ∧
    (∀ (m : StatusMsg) (k : String), m.status = "FAIL" → m.cache_key = some k →
      live_get_message (some m) = .ok ⟨"cachekeyerr", none, 200, .text k⟩) ∧
    (∀ m : StatusMsg, m.status ≠ "STOP" → m.status ≠ "START" → m.status ≠ "OK" →
      m.status ≠ "FAIL" →
      live_get_message (some m) =
        .ok ⟨"error", some "Unknown message", 500, .raw m⟩) := by
  refine ⟨rfl, ?_, ?_, ?_, ?_, ?_⟩ <;> intros <;>
    simp_all [live_get_message, mapStatusMessage]

/-- C5 witness: concrete messages of every status shape evaluate to the
table rows. -/
theorem claim_C5_live_status_table_witness :
    live_get_message (some ⟨"OK", some "key1"⟩) =
      .ok ⟨"cachekey", none, 200, .text "key1"⟩ ∧
    live_get_message (some ⟨"FAIL", some "key2"⟩) =
      .ok ⟨"cachekeyerr", none, 200, .text "key2"⟩ ∧
    live_get_message (some ⟨"STOP", none⟩) =
      .ok ⟨"stop", none, 200, .text "All messages received, closing queue..."⟩ ∧
    live_get_message (some ⟨"START", none⟩) =
      .ok ⟨"start", none, 200, .text "Start listening..."⟩ ∧
    live_get_message (some ⟨"WEIRD", none⟩) =
      .ok ⟨"error", some "Unknown message", 500, .raw ⟨"WEIRD", none⟩⟩ :=
  ⟨claim_C5_live_status_table.2.2.2.1 ⟨"OK", some "key1"⟩ "key1" rfl rfl,
   claim_C5_live_status_table.2.2.2.2.1 ⟨"FAIL", some "key2"⟩ "key2" rfl rfl,
   claim_C5_live_status_table.2.1 ⟨"STOP", none⟩ rfl,
   claim_C5_live_status_table.2.2.1 ⟨"START", none⟩ rfl,
   claim_C5_live_status_table.2.2.2.2.2 ⟨"WEIRD", none⟩ (by decide) (by decide)
     (by decide) (by decide)⟩

/-- C6: draining an empty queue yields the empty list; draining a queue of N
well-formed messages yields exactly N responses, pointwise the read_one
table mapping in arrival order, with no timeout entry appended. -/
theorem claim_C6_drain_all :
    live_get_messages [] = .ok [] ∧
    ∀ q : List StatusMsg, (∀ m ∈ q, wfStatusMsg m) →
      ∃ l, live_get_messages q = .ok l ∧ l.length = q.length ∧
        List.Forall₂ (fun m r => mapStatusMessage m = Except.ok r) q l ∧
        ∀ r ∈ l, r.type ≠ "timeout" := by
  refine ⟨rfl, ?_⟩
  intro q
  induction q with
  | nil =>
      intro _
      exact ⟨[], rfl, rfl, List.Forall₂.nil, by intro r hr; cases hr⟩
  | cons m rest ih =>
      intro hwf
      obtain ⟨r, hr, hrt⟩ := mapStatusMessage_ok m (hwf m (by simp))
      obtain ⟨l, hl, hlen, hall, htout⟩ := ih (fun x hx => hwf x (by simp [hx]))
      refine ⟨r :: l, ?_, ?_, List.Forall₂.cons hr hall, ?_⟩
      · simp only [live_get_messages, hr, hl]
        rfl
      · simp [hlen]
      · intro x hx
        rcases List.mem_cons.mp hx with h | h
        · exact h ▸ hrt
        · exact htout x h

/-- The injective counter rendering has length equal to the counter. -/
theorem natTag_length (n : Nat) : (natTag n).length = n := by
  induction n with
  | zero => rfl
  | succ k ih =>
      rw [natTag, String.length_append, ih]
      have h1 : "i".length = 1 := rfl
      rw [h1]

/-- Reply queue names with the same state are distinct for distinct
allocation counters. -/
theorem reply_queue_name_inj (pfx : String) (a b : Nat)
    (h : reply_queue_name pfx a = reply_queue_name pfx b) : a = b := by
  have hl := congrArg String.length h
  simp only [reply_queue_name, String.length_append, natTag_length] at hl
  omega

/-- Pushing appends to the tail of the queue with that name. -/
theorem lookupQueue_pushNamed {α : Type} (qs : List (String × List α)) (n : String)
    (m : α) : lookupQueue (pushNamed qs n m) n = lookupQueue qs n ++ [m] := by
  induction qs with
  | nil => simp [pushNamed, lookupQueue, List.find?]
  | cons p rest ih =>
      obtain ⟨q, ms⟩ := p
      by_cases h : q = n
      · subst h
        simp [pushNamed, lookupQueue, List.find?]
      · have hb : (q == n) = false := beq_eq_false_iff_ne.mpr h
        simp only [pushNamed, if_neg h]
        simpa [lookupQueue, List.find?_cons, hb] using ih

/-- C6 witness: a concrete two-message queue drains to its two mapped
entries in order. -/
theorem claim_C6_drain_all_witness :
    ∃ l, live_get_messages [⟨"START", none⟩, ⟨"OK", some "ck"⟩] = .ok l ∧
      l.length = 2 ∧ ∀ r ∈ l, r.type ≠ "timeout" := by
  obtain ⟨l, h1, h2, _, h4⟩ :=
    claim_C6_drain_all.2 [⟨"START", none⟩, ⟨"OK", some "ck"⟩]
      (by intro m hm; fin_cases hm <;> simp [wfStatusMsg])
  exact ⟨l, h1, h2, h4⟩

/-- C7 counterexample: on a concrete accessible request the control message
pushed onto control-queue carries the state string of the source, which is
the misspelled oustanding_services, not outstanding_services. -/
theorem claim_C7_counterexample :
    (lookupQueue (outstanding_services (fun _ _ => true) (fun _ => some ⟨"TLP"⟩)
        "sid1" (some ⟨"TLP"⟩) ⟨0, [], [], []⟩).2.ctrlQueues "control-queue").map
      (fun r => r.state) = ["oustanding_services"] ∧
    "oustanding_services" ≠ "outstanding_services" := by decide

/-- C7 (amended): for an accessible submission the endpoint allocates a fresh
reply-queue name (the name generator is injective in the allocation counter,
which advances by one per call), pushes onto control-queue a ControlRequest
whose state is the literal string oustanding_services (sic) and whose
watch_queue is that fresh name, then pops that reply queue with a 5-second
bound and returns whatever arrived, or the timeout indicator; without access
it returns the 403 response and the queue state is untouched. -/
theorem claim_C7_amended_control_request (acc : String → String → Bool)
    (store : String → Option SubRecord) (sid : String) (u : LiveUser)
    (w : LiveWorld) :
    (∀ d, store sid = some d → acc u.classification d.classification = true →
      lookupQueue (outstanding_services acc store sid (some u) w).2.ctrlQueues
          "control-queue" =
        lookupQueue w.ctrlQueues "control-queue" ++
          [⟨sid, "oustanding_services",
            reply_queue_name "oustanding_services" w.nextReply⟩] ∧
      (outstanding_services acc store sid (some u) w).2.popCalls =
        w.popCalls ++ [(reply_queue_name "oustanding_services" w.nextReply, 5)] ∧
      (outstanding_services acc store sid (some u) w).1 =
        .reply (popNamed w.replyQueues
          (reply_queue_name "oustanding_services" w.nextReply)).1 ∧
      (outstanding_services acc store sid (some u) w).2.nextReply =
        w.nextReply + 1) ∧
    (∀ a b : Nat, a ≠ b →
      reply_queue_name "oustanding_services" a ≠
        reply_queue_name "oustanding_services" b) ∧
    (∀ d, store sid = some d → acc u.classification d.classification = false →
      outstanding_services acc store sid (some u) w =
        (.forbidden "You are not allowed to access this submissions." 403, w)) := by
  refine ⟨?_, ?_, ?_⟩
  · intro d hd hacc
    refine ⟨?_, ?_, ?_, ?_⟩ <;>
      simp [outstanding_services, hd, hacc, lookupQueue_pushNamed]
  · intro a b hab h
    exact hab (reply_queue_name_inj _ a b h)
  · intro d hd hacc
    simp [outstanding_services, hd, hacc]

/-- C7 witness: a concrete accessible call pushes the control request with
the fresh reply name, records the 5-second pop, and returns the waiting
reply; two successive allocations give distinct names. -/
theorem claim_C7_amended_control_request_witness :
    lookupQueue (outstanding_services (fun _ _ => true) (fun _ => some ⟨"TLP"⟩)
        "sid1" (some ⟨"TLP"⟩) ⟨0, [], [("oustanding_services-", ["r1"])], []⟩).2.ctrlQueues
        "control-queue" =
      [⟨"sid1", "oustanding_services", reply_queue_name "oustanding_services" 0⟩] ∧
    (outstanding_services (fun _ _ => true) (fun _ => some ⟨"TLP"⟩)
        "sid1" (some ⟨"TLP"⟩) ⟨0, [], [("oustanding_services-", ["r1"])], []⟩).2.popCalls =
      [(reply_queue_name "oustanding_services" 0, 5)] ∧
    reply_queue_name "oustanding_services" 0 ≠ reply_queue_name "oustanding_services" 1 := by
  have h := claim_C7_amended_control_request (fun _ _ => true)
    (fun _ => some ⟨"TLP"⟩) "sid1" ⟨"TLP"⟩
    ⟨0, [], [("oustanding_services-", ["r1"])], []⟩
  obtain ⟨hmain, hfresh, _⟩ := h
  obtain ⟨h1, h2, _, _⟩ := hmain ⟨"TLP"⟩ rfl rfl
  exact ⟨by simpa using h1, by simpa using h2, hfresh 0 1 (by decide)⟩

/-- Sample configuration for concrete runs. -/
def cfgA : Config := ⟨100, 100, 30, true, 500, 501⟩

/-- Sample user default submission params with every dangerous flag set. -/
def udA : SParams :=
  ⟨true, 1000, true, true, true, "USER", none, 7, none, "TLP", "", false, 1, 1, ""⟩

/-- Sample authenticated user. -/
def userA : User := ⟨"alice", ["g1"], udA⟩

/-- Empty starting world. -/
def wA : World := ⟨0, [], [], [], 0, [], [], 0⟩

/-- Sample content of size 10. -/
def cA : Content := ⟨⟨"hashA", 10⟩, none⟩

/-- C1 counterexample: a caller params block with deep_scan=true produces an
admitted submission whose params carry deep_scan=true — the safety reset is
applied before the caller params, so the caller value survives, refuting the
claim that the admitted record always has deep_scan=false. -/
theorem claim_C1_counterexample :
    (ingest_single_file cfgA userA
        ⟨.multipart (some { params := some { deep_scan := some true } })
          (some ⟨"f.bin", cA⟩), .invalidUrl⟩ wA).2.ingestQueue.map
      (fun s => s.params.deep_scan) = [true] := by decide

/-- C1 (amended): the safety reset of the four dangerous flags is applied to
the user defaults BEFORE caller-supplied params are merged, so each flag of
the admitted params equals the caller value when supplied and false
otherwise; a caller can therefore re-enable the dangerous behaviour. -/
theorem claim_C1_amended_safety_before_params (cfg : Config) (user : User)
    (data : DataBlock) (ga : Bool) :
    (build_s_params cfg user data ga).deep_scan =
      (data.params.getD {}).deep_scan.getD false ∧
    (build_s_params cfg user data ga).ignore_cache =
      (data.params.getD {}).ignore_cache.getD false ∧
    (build_s_params cfg user data ga).ignore_dynamic_recursion_prevention =
      (data.params.getD {}).ignore_dynamic_recursion_prevention.getD false ∧
    (build_s_params cfg user data ga).ignore_filtering =
      (data.params.getD {}).ignore_filtering.getD false := by
  unfold build_s_params
  simp only [ui_to_submission_params, resetDangerous, applyOverride, finalOverride,
    clampTtl]
  split_ifs <;> simp

/-- C4: the admitted priority is the minimum of the caller-or-default (150)
priority and the configured max ingest priority, hence never above the max;
when a positive max days-to-live is configured, the admitted ttl is the
clamped caller-or-default ttl (the max itself when that value is falsy) and
never exceeds the max. -/
theorem claim_C4_priority_ttl_clamp (cfg : Config) (user : User)
    (data : DataBlock) (ga : Bool) :
    (build_s_params cfg user data ga).priority =
      min ((data.params.getD {}).priority.getD 150) cfg.ingest_max_priority ∧
    (build_s_params cfg user data ga).priority ≤ cfg.ingest_max_priority ∧
    (0 < cfg.max_dtl →
      (build_s_params cfg user data ga).ttl =
        (if (data.params.getD {}).ttl.getD user.settings.ttl ≠ 0
         then min ((data.params.getD {}).ttl.getD user.settings.ttl) cfg.max_dtl
         else cfg.max_dtl) ∧
      (build_s_params cfg user data ga).ttl ≤ cfg.max_dtl) := by
  have hprio : (build_s_params cfg user data ga).priority =
      min ((data.params.getD {}).priority.getD 150) cfg.ingest_max_priority := by
    unfold build_s_params
    simp only [ui_to_submission_params, resetDangerous, applyOverride, finalOverride,
      clampTtl]
    split_ifs <;> simp
  refine ⟨hprio, by rw [hprio]; exact min_le_right _ _, ?_⟩
  intro hdtl
  have httl : (build_s_params cfg user data ga).ttl =
      (if (data.params.getD {}).ttl.getD user.settings.ttl ≠ 0
       then min ((data.params.getD {}).ttl.getD user.settings.ttl) cfg.max_dtl
       else cfg.max_dtl) := by
    unfold build_s_params
    simp only [ui_to_submission_params, resetDangerous, applyOverride, finalOverride,
      clampTtl]
    split_ifs <;> simp_all
  refine ⟨httl, ?_⟩
  rw [httl]
  split_ifs
  · exact min_le_right _ _
  · exact le_refl _

/-- C4 witness: a concrete caller priority of 500 is clamped to the
configured max of 100, and with a positive configured max days-to-live the
admitted ttl stays within it. -/
theorem claim_C4_priority_ttl_clamp_witness :
    (0:Int) < cfgA.max_dtl ∧
    (build_s_params cfgA userA { params := some { priority := some 500 } } false).priority =
      min 500 cfgA.ingest_max_priority ∧
    (build_s_params cfgA userA { params := some { priority := some 500 } } false).ttl ≤
      cfgA.max_dtl := by
  have h := claim_C4_priority_ttl_clamp cfgA userA
    { params := some { priority := some 500 } } false
  exact ⟨by decide, h.1, (h.2.2 (by decide)).2⟩

/-- C3: a resolved file strictly larger than the configured maximum is
rejected with the size error when the effective params do not set
ignore_size; a resolved file of size exactly zero is rejected with the
empty-file error with no regard to ignore_size; an over-size file with
ignore_size set and non-zero size passes the gate and the request is
admitted. -/
theorem claim_C3_size_gate (cfg : Config) (user : User) (data : DataBlock)
    (ga : Bool) (nt : JVal) (out_dir out_file nm : String) (c : Content)
    (em : List (String × String)) (w : World) :
    (cfg.max_file_size < c.info.size →
      (build_s_params cfg user data ga).ignore_size.getD false = false →
      (ingestAfterResolve cfg user data ga nt out_dir out_file nm c em w).outcome =
        .resp (.err (sizeErrMsg c.info.size cfg.max_file_size) 400)) ∧
    (c.info.size = 0 →
      (ingestAfterResolve cfg user data ga nt out_dir out_file nm c em w).outcome =
        .resp (.err "File empty. Ingestion failed" 400)) ∧
    (c.info.size ≠ 0 →
      (build_s_params cfg user data ga).ignore_size.getD false = true →
      (ingestAfterResolve cfg user data ga nt out_dir out_file nm c em w).outcome =
        .resp (.ok w.nextId)) := by
  refine ⟨?_, ?_, ?_⟩
  · intro h1 h2
    unfold ingestAfterResolve
    rw [if_pos ⟨h1, h2⟩]
  · intro h0
    unfold ingestAfterResolve
    rw [if_neg (fun hc => absurd (h0 ▸ hc.1) (by omega)), if_pos h0]
  · intro hnz hig
    unfold ingestAfterResolve
    rw [if_neg (fun hc => by rw [hig] at hc; exact absurd hc.2 (by simp)),
      if_neg hnz]
    cases hd : c.decoded with
    | none =>
        simp only [hd, World.writeFile, storeUpload]
        split <;> rfl
    | some pr =>
        simp only [hd, World.writeFile, storeUpload]
        split <;> rfl

/-- C3 witness: concrete over-size, zero-size and override runs exercise the
three branches of the gate. -/
theorem claim_C3_size_gate_witness :
    (cfgA.max_file_size < 200 ∧
      (ingestAfterResolve cfgA userA {} false .jnull "d" "f" "n"
          ⟨⟨"hB", 200⟩, none⟩ [] wA).outcome =
        .resp (.err (sizeErrMsg 200 cfgA.max_file_size) 400)) ∧
    (ingestAfterResolve cfgA userA { params := some { ignore_size := some true } }
        false .jnull "d" "f" "n" ⟨⟨"hZ", 0⟩, none⟩ [] wA).outcome =
      .resp (.err "File empty. Ingestion failed" 400) ∧
    (ingestAfterResolve cfgA userA { params := some { ignore_size := some true } }
        false .jnull "d" "f" "n" ⟨⟨"hB", 200⟩, none⟩ [] wA).outcome =
      .resp (.ok wA.nextId) := by
  refine ⟨⟨by decide, ?_⟩, ?_, ?_⟩
  · exact (claim_C3_size_gate cfgA userA {} false .jnull "d" "f" "n"
      ⟨⟨"hB", 200⟩, none⟩ [] wA).1 (by decide) (by decide)
  · exact (claim_C3_size_gate cfgA userA { params := some { ignore_size := some true } }
      false .jnull "d" "f" "n" ⟨⟨"hZ", 0⟩, none⟩ [] wA).2.1 rfl
  · exact (claim_C3_size_gate cfgA userA { params := some { ignore_size := some true } }
      false .jnull "d" "f" "n" ⟨⟨"hB", 200⟩, none⟩ [] wA).2.2 (by decide) (by decide)

/-- C8: an application/json request with neither sha256 nor url and no name
raises a TypeError from os.path.basename(None) — an unhandled exception, not
the 400 rejection the claim states; when a name IS supplied the same missing
source is rejected with the 400 missing-file error as claimed. -/
theorem claim_C8_missing_source_behaviour :
    (ingest_single_file cfgA userA
        ⟨.jsonBody { metadata := some [("k", "v")] }, .invalidUrl⟩ wA).1 =
      .exn "TypeError" ∧
    (ingest_single_file cfgA userA
        ⟨.jsonBody { name := some "x.bin", metadata := some [("k", "v")] },
          .invalidUrl⟩ wA).1 =
      .resp (.err "Missing file to scan. No binary, sha256 or url provided." 400) := by
  decide

/-- C10: a multipart request whose json part is missing or parses to an
empty object is rejected with the missing-data-block 400 error even when a
bin part is attached. -/
theorem claim_C10_missing_data_block (cfg : Config) (user : User) (w : World)
    (jp : Option DataBlock) (bin : BinFile) (fetch : FetchResult)
    (h : (jp.getD {}).isEmpty = true) :
    (ingest_single_file cfg user ⟨.multipart jp (some bin), fetch⟩ w).1 =
      .resp (.err "Missing data block" 400) := by
  simp [ingest_single_file, ingestBody, ingestLoadAndGo, h]

/-- C10 witness: both the missing json part and an explicitly empty json
object are rejected with the missing-data-block error despite the attached
bin part. -/
theorem claim_C10_missing_data_block_witness :
    ((none : Option DataBlock).getD {}).isEmpty = true ∧
    (ingest_single_file cfgA userA
        ⟨.multipart none (some ⟨"f.bin", cA⟩), .invalidUrl⟩ wA).1 =
      .resp (.err "Missing data block" 400) ∧
    (ingest_single_file cfgA userA
        ⟨.multipart (some {}) (some ⟨"f.bin", cA⟩), .invalidUrl⟩ wA).1 =
      .resp (.err "Missing data block" 400) :=
  ⟨by decide,
   claim_C10_missing_data_block cfgA userA wA none ⟨"f.bin", cA⟩ .invalidUrl (by decide),
   claim_C10_missing_data_block cfgA userA wA (some {}) ⟨"f.bin", cA⟩ .invalidUrl
     (by decide)⟩

/-- The first cleanup stage does not touch the directory set. -/
theorem cleanupOriginal_fs_dirs (b : BodyResult) :
    (cleanupOriginal b).fs_dirs = b.world.fs_dirs := by
  unfold cleanupOriginal
  rcases b.original_file with _ | p
  · rfl
  · dsimp only
    split <;> rfl

/-- The second cleanup stage does not touch the directory set. -/
theorem cleanupExtracted_fs_dirs (w : World) (e : Option String) :
    (cleanupExtracted w e).fs_dirs = w.fs_dirs := by
  unfold cleanupExtracted
  rcases e with _ | p
  · rfl
  · dsimp only
    split <;> rfl

/-- When the directory exists, the third cleanup stage removes it and every
file under it. -/
theorem cleanupDir_removes (w : World) (d : String) (h : d ∈ w.fs_dirs) :
    d ∉ (cleanupDir w d).fs_dirs ∧
    ∀ p ∈ (cleanupDir w d).fs_files, isPre (d ++ "/") p = false := by
  have hc : w.fs_dirs.contains d = true := List.elem_eq_true_of_mem h
  unfold cleanupDir
  rw [hc]
  simp only [Bool.true_or, if_true]
  constructor
  · intro hmem
    simp only [World.rmtree, List.mem_filter] at hmem
    simp at hmem
  · intro p hp
    simp only [World.rmtree, List.mem_filter] at hp
    simpa using hp.2

/-- C2: whenever a request reaches the temp-directory creation step (the
directory is present at the end of the try body), the final world after the
finally cleanup no longer contains the temp directory nor any file under it,
wherever the try body exited — response or exception. -/
theorem claim_C2_cleanup_on_all_paths (cfg : Config) (user : User) (req : Request)
    (w : World)
    (h : (ingestBody cfg user req w).out_dir ∈ (ingestBody cfg user req w).world.fs_dirs) :
    (ingestBody cfg user req w).out_dir ∉ (ingest_single_file cfg user req w).2.fs_dirs ∧
    ∀ p ∈ (ingest_single_file cfg user req w).2.fs_files,
      isPre ((ingestBody cfg user req w).out_dir ++ "/") p = false := by
  have hdirs : (cleanupExtracted (cleanupOriginal (ingestBody cfg user req w))
      (ingestBody cfg user req w).extracted_path).fs_dirs =
      (ingestBody cfg user req w).world.fs_dirs := by
    rw [cleanupExtracted_fs_dirs, cleanupOriginal_fs_dirs]
  exact cleanupDir_removes _ _ (by rw [hdirs]; exact h)

/-- C2 witness: a concrete admitted multipart run creates the temp directory
and the final world holds neither it nor any file under it. -/
theorem claim_C2_cleanup_on_all_paths_witness :
    ((ingestBody cfgA userA
        ⟨.multipart (some { name := some "w.bin" }) (some ⟨"w.bin", cA⟩),
          .invalidUrl⟩ wA).out_dir ∈
      (ingestBody cfgA userA
        ⟨.multipart (some { name := some "w.bin" }) (some ⟨"w.bin", cA⟩),
          .invalidUrl⟩ wA).world.fs_dirs) ∧
    ((ingestBody cfgA userA
        ⟨.multipart (some { name := some "w.bin" }) (some ⟨"w.bin", cA⟩),
          .invalidUrl⟩ wA).out_dir ∉
      (ingest_single_file cfgA userA
        ⟨.multipart (some { name := some "w.bin" }) (some ⟨"w.bin", cA⟩),
          .invalidUrl⟩ wA).2.fs_dirs) :=
  ⟨by decide,
   (claim_C2_cleanup_on_all_paths cfgA userA
     ⟨.multipart (some { name := some "w.bin" }) (some ⟨"w.bin", cA⟩), .invalidUrl⟩
     wA (by decide)).1⟩


/-- A multipart request submitting the given content under the name s.bin. -/
def mkMultipartReq (c : Content) : Request :=
  ⟨.multipart (some { name := some "s.bin" }) (some ⟨"s.bin", c⟩), .invalidUrl⟩

theorem ingestBody_run_facts (cfg : Config) (user : User) (w : World) (c : Content)
    (hsz : c.info.size ≤ cfg.max_file_size) (hnz : c.info.size ≠ 0)
    (hdec : c.decoded = none) :
    (ingestBody cfg user (mkMultipartReq c) w).outcome = .resp (.ok (w.nextId + 1)) ∧
    (ingestBody cfg user (mkMultipartReq c) w).world.ingestQueue.map Submission.sid =
      w.ingestQueue.map Submission.sid ++ [w.nextId + 1] ∧
    (ingestBody cfg user (mkMultipartReq c) w).world.nextId = w.nextId + 2 ∧
    (ingestBody cfg user (mkMultipartReq c) w).world.uploads =
      (if storeExists w c.info.sha256 then w.uploads else w.uploads + 1) ∧
    storeExists (ingestBody cfg user (mkMultipartReq c) w).world c.info.sha256 = true := by
  have hg1 : ¬(c.info.size > cfg.max_file_size ∧
      (build_s_params cfg user { name := some "s.bin" } false).ignore_size.getD false
        = false) := fun hx => absurd hx.1 (by omega)
  obtain ⟨ci, cdec⟩ := c
  simp only at hdec hsz hnz hg1 ⊢
  subst hdec
  by_cases hst : storeExists w ci.sha256 = true
  all_goals simp only [storeExists] at hst
  all_goals simp [mkMultipartReq, ingestBody, ingestLoadAndGo, ingestAfterResolve,
    DataBlock.isEmpty, JVal.isInstInt, JVal.truthy, JVal.isInstBool, pyTruthyStr,
    safe_str, basename, basenameChars, hg1, hnz, World.mkdir, World.writeFile,
    storeExists, storeUpload, pathJoin, hst]

/-- The finally cleanup touches only the filesystem fields of the world. -/
theorem cleanupFiles_core (b : BodyResult) :
    (cleanupFiles b).filestore = b.world.filestore ∧
    (cleanupFiles b).uploads = b.world.uploads ∧
    (cleanupFiles b).ingestQueue = b.world.ingestQueue ∧
    (cleanupFiles b).nextId = b.world.nextId := by
  unfold cleanupFiles cleanupDir cleanupExtracted cleanupOriginal
  rcases b.original_file with _ | p <;> rcases b.extracted_path with _ | q <;>
    dsimp only <;> split_ifs <;> simp [World.unlink, World.rmtree]

/-- Worlds with the same filestore agree on existence checks. -/
theorem storeExists_congr {w v : World} (h : w.filestore = v.filestore) (s : String) :
    storeExists w s = storeExists v s := by
  unfold storeExists
  rw [h]

/-- C9: running the same content through ingest twice uploads it to the
content store only on the first run (the second observes it already exists),
while each run publishes its own job record under its own fresh ingest id. -/
theorem claim_C9_dedup_and_fresh_ids (cfg : Config) (user : User) (w : World)
    (c : Content) (hsz : c.info.size ≤ cfg.max_file_size) (hnz : c.info.size ≠ 0)
    (hdec : c.decoded = none) (hnew : storeExists w c.info.sha256 = false) :
    (ingest_single_file cfg user (mkMultipartReq c) w).1 =
      .resp (.ok (w.nextId + 1)) ∧
    (ingest_single_file cfg user (mkMultipartReq c) w).2.uploads = w.uploads + 1 ∧
    storeExists (ingest_single_file cfg user (mkMultipartReq c) w).2
      c.info.sha256 = true ∧
    (ingest_single_file cfg user (mkMultipartReq c)
        (ingest_single_file cfg user (mkMultipartReq c) w).2).1 =
      .resp (.ok (w.nextId + 3)) ∧
    (ingest_single_file cfg user (mkMultipartReq c)
        (ingest_single_file cfg user (mkMultipartReq c) w).2).2.uploads =
      w.uploads + 1 ∧
    (ingest_single_file cfg user (mkMultipartReq c)
        (ingest_single_file cfg user (mkMultipartReq c) w).2).2.ingestQueue.map
      Submission.sid =
      w.ingestQueue.map Submission.sid ++ [w.nextId + 1, w.nextId + 3] ∧
    w.nextId + 1 ≠ w.nextId + 3 := by
  obtain ⟨o1, q1, n1, u1, e1⟩ := ingestBody_run_facts cfg user w c hsz hnz hdec
  obtain ⟨f1, up1, iq1, ni1⟩ :=
    cleanupFiles_core (ingestBody cfg user (mkMultipartReq c) w)
  rw [hnew] at u1
  simp at u1
  have hw1u : (ingest_single_file cfg user (mkMultipartReq c) w).2.uploads =
      w.uploads + 1 := by
    show (cleanupFiles (ingestBody cfg user (mkMultipartReq c) w)).uploads = _
    rw [up1, u1]
  have hw1e : storeExists (ingest_single_file cfg user (mkMultipartReq c) w).2
      c.info.sha256 = true := by
    show storeExists (cleanupFiles (ingestBody cfg user (mkMultipartReq c) w)) _ = true
    rw [storeExists_congr f1, e1]
  have hw1n : (ingest_single_file cfg user (mkMultipartReq c) w).2.nextId =
      w.nextId + 2 := by
    show (cleanupFiles (ingestBody cfg user (mkMultipartReq c) w)).nextId = _
    rw [ni1, n1]
  have hw1q : (ingest_single_file cfg user (mkMultipartReq c) w).2.ingestQueue.map
      Submission.sid = w.ingestQueue.map Submission.sid ++ [w.nextId + 1] := by
    show (cleanupFiles (ingestBody cfg user (mkMultipartReq c) w)).ingestQueue.map
      Submission.sid = _
    rw [iq1, q1]
  obtain ⟨o2, q2, n2, u2, e2⟩ := ingestBody_run_facts cfg user
    (ingest_single_file cfg user (mkMultipartReq c) w).2 c hsz hnz hdec
  obtain ⟨f2, up2, iq2, ni2⟩ := cleanupFiles_core (ingestBody cfg user (mkMultipartReq c)
    (ingest_single_file cfg user (mkMultipartReq c) w).2)
  rw [hw1e] at u2
  simp at u2
  refine ⟨o1, hw1u, hw1e, ?_, ?_, ?_, by omega⟩
  · show (ingestBody cfg user (mkMultipartReq c)
      (ingest_single_file cfg user (mkMultipartReq c) w).2).outcome = _
    rw [o2, hw1n]
  · show (cleanupFiles (ingestBody cfg user (mkMultipartReq c)
      (ingest_single_file cfg user (mkMultipartReq c) w).2)).uploads = _
    rw [up2, u2, hw1u]
  · show (cleanupFiles (ingestBody cfg user (mkMultipartReq c)
      (ingest_single_file cfg user (mkMultipartReq c) w).2)).ingestQueue.map
      Submission.sid = _
    rw [iq2, q2, hw1q, hw1n]
    simp


/-- C9 witness: a concrete fresh content ingested twice from the empty world
uploads once, and the two runs publish ids 1 and 3. -/
theorem claim_C9_dedup_and_fresh_ids_witness :
    storeExists wA cA.info.sha256 = false ∧
    (ingest_single_file cfgA userA (mkMultipartReq cA) wA).2.uploads = wA.uploads + 1 ∧
    (ingest_single_file cfgA userA (mkMultipartReq cA)
        (ingest_single_file cfgA userA (mkMultipartReq cA) wA).2).2.uploads =
      wA.uploads + 1 ∧
    (ingest_single_file cfgA userA (mkMultipartReq cA)
        (ingest_single_file cfgA userA (mkMultipartReq cA) wA).2).2.ingestQueue.map
      Submission.sid = [1, 3] := by
  have h := claim_C9_dedup_and_fresh_ids cfgA userA wA cA (by decide) (by decide) rfl
    (by decide)
  refine ⟨by decide, h.2.1, h.2.2.2.2.1, ?_⟩
  have hq := h.2.2.2.2.2.1
  simpa [wA] using hq

end ALUI
